import Mathlib

/-!
Verification of the connection-lifecycle behaviour of the Baileys WhatsApp
REST server (`server.js`).  The definitions below are a shallow embedding of
the relevant parts of the source: the JID normalization in the send-message
route, the `connection.update` event handler, the `/api/disconnect` route,
the `/api/qr` route, the `/api/send-message` route pipeline, and the set of
registered routes.  Machine effects (multer file writes, `fs.rmSync`,
`setTimeout`) are made explicit as data in the outcomes.
-/

namespace BaileysApi

/-- `leadsWith pat l` holds when the character list `pat` is an initial
segment of `l`. -/
def leadsWith : List Char → List Char → Bool
  | [], _ => true
  | _ :: _, [] => false
  | a :: as, b :: bs => a == b && leadsWith as bs

/-- `hasSubList pat l`: `pat` occurs contiguously somewhere inside `l`. -/
def hasSubList (pat : List Char) : List Char → Bool
  | [] => pat.isEmpty
  | c :: rest => leadsWith pat (c :: rest) || hasSubList pat rest

/-- JavaScript `s.includes(pat)` on strings. -/
def strHasSub (s pat : String) : Bool :=
  hasSubList pat.toList s.toList

/-- The character class `[\d+]` of the regex in the send-message route:
a decimal digit or the plus sign. -/
def isDigitOrPlus (c : Char) : Bool :=
  c.isDigit || c == '+'

/-- `number.replace(/[^\d+]/g, '')` from `server.js` line 984: delete every
character that is not a digit and not `'+'`. -/
def cleanNumber (s : String) : String :=
  String.mk (s.toList.filter isDigitOrPlus)

/-- The JID normalization of `app.post('/api/send-message')`
(`server.js` lines 975-986): a string containing `@g.us` or
`@s.whatsapp.net` is used verbatim; otherwise it is cleaned with
`cleanNumber` and `@s.whatsapp.net` is appended. -/
def formatJid (number : String) : String :=
  if strHasSub number "@g.us" then number
  else if strHasSub number "@s.whatsapp.net" then number
  else cleanNumber number ++ "@s.whatsapp.net"

/-- The `userInfo` record built in the `'open'` branch of the
`connection.update` handler (`server.js` lines 118-123). -/
structure UserInfo where
  id : String
  name : String
deriving DecidableEq, Repr

/-- `lastDisconnect?.error` as inspected by the close branch: whether the
error is a `Boom` instance, and its `output.statusCode`. -/
structure CloseErr where
  isBoom : Bool
  statusCode : Nat
deriving DecidableEq, Repr

/-- `DisconnectReason.loggedOut` from Baileys. -/
def loggedOutCode : Nat := 401

/-- The value of the `connection` field of a `connection.update` payload,
as far as the handler distinguishes it (`'close'`, `'open'`, anything
else such as `'connecting'`). -/
inductive ConnSignal
  | closeSig
  | openSig
  | otherSig
deriving DecidableEq, Repr

/-- The mutable module-level state of `server.js`:
`qrCodeData`, `isReady`, `userInfo`, and whether `sock` is non-null. -/
structure ConnState where
  qrCodeData : Option String
  isReady : Bool
  userInfo : Option UserInfo
  sockPresent : Bool
deriving DecidableEq, Repr

/-- A `connection.update` payload: optional `qr` token, optional
`connection` signal, `lastDisconnect?.error`, and the value of `sock.user`
read by the open branch. -/
structure ConnUpdate where
  qr : Option String
  connection : Option ConnSignal
  lastDisconnectErr : Option CloseErr
  sockUser : Option UserInfo
deriving DecidableEq, Repr

/-- The reconnect predicate of the close branch (`server.js` lines
98-100): a `Boom` error reconnects unless its status code is
`DisconnectReason.loggedOut`; any non-`Boom` (or absent) error
reconnects. -/
def shouldReconnect (err : Option CloseErr) : Bool :=
  match err with
  | some e => if e.isBoom then e.statusCode != loggedOutCode else true
  | none => true

/-- The `sock.ev.on('connection.update')` handler (`server.js` lines
85-125).  Returns the updated state together with the delay of the
reconnect timer it schedules, if any (`setTimeout(initializeWhatsApp,
5000)` in the close branch). -/
def handleUpdate (s : ConnState) (u : ConnUpdate) : ConnState × Option Nat :=
  let s1 := match u.qr with
    | some t => { s with qrCodeData := some t }
    | none => s
  match u.connection with
  | some .closeSig =>
      ({ s1 with isReady := false, qrCodeData := none },
       if shouldReconnect u.lastDisconnectErr then some 5000 else none)
  | some .openSig =>
      let newUser := match u.sockUser with
        | some uu => some uu
        | none => s1.userInfo
      ({ s1 with isReady := true, qrCodeData := none, userInfo := newUser }, none)
  | _ => (s1, none)

/-- An observable side effect of the `/api/disconnect` route, in the order
the route attempts it: `sock.logout()`, `sock.end()`, `fs.rmSync` on the
auth directory, `setTimeout(initializeWhatsApp, delayMs)`. -/
inductive Action
  | logoutAct
  | endSockAct
  | deleteAuthAct
  | scheduleReconnect (delayMs : Nat)
deriving DecidableEq, Repr

/-- The `status` field of a JSON response body of the disconnect route. -/
inductive RespStatus
  | success
  | error
deriving DecidableEq, Repr

/-- The JSON body returned by `/api/disconnect`: its `status` and its
`deletedAuth` field. -/
structure DisResp where
  status : RespStatus
  deletedAuth : Bool
deriving DecidableEq, Repr

/-- The full outcome of one `/api/disconnect` request: the state left
behind, whether the `auth_info` directory still exists, the JSON response,
and the ordered list of side effects attempted. -/
structure DisOutcome where
  state : ConnState
  authDirExists : Bool
  resp : DisResp
  trace : List Action
deriving DecidableEq, Repr

/-- `app.post('/api/disconnect')` (`server.js` lines 1102-1180).
`deleteAuth` is the request-body flag (default `false`); `rmFails` models
`fs.rmSync` throwing (the error is caught and logged).  With no socket the
route returns `{status:'success', deletedAuth:false}` at once.  Otherwise
it attempts `logout()` then `end()` (both best-effort), nulls the socket,
clears `isReady` and `qrCodeData`, deletes the auth directory only when
`deleteAuth` is set and the directory exists, answers
`{status:'success', deletedAuth: deleteAuth}`, and schedules
`initializeWhatsApp` after 2000 ms only when `deleteAuth` is unset. -/
def disconnectRoute (s : ConnState) (authDirExists : Bool)
    (deleteAuth : Bool) (rmFails : Bool) : DisOutcome :=
  if s.sockPresent then
    let s1 : ConnState :=
      { s with sockPresent := false, isReady := false, qrCodeData := none }
    let wipeAttempted := deleteAuth && authDirExists
    let auth1 := if wipeAttempted && !rmFails then false else authDirExists
    let tr := [Action.logoutAct, Action.endSockAct]
      ++ (if wipeAttempted then [Action.deleteAuthAct] else [])
      ++ (if deleteAuth then [] else [Action.scheduleReconnect 2000])
    { state := s1, authDirExists := auth1,
      resp := ⟨.success, deleteAuth⟩, trace := tr }
  else
    { state := s, authDirExists := authDirExists,
      resp := ⟨.success, false⟩, trace := [] }

/-- Checks that every auth-directory deletion in a trace is strictly
preceded by both a logout attempt and a socket-close attempt. -/
def teardownBeforeWipe : Bool → Bool → List Action → Bool
  | _, _, [] => true
  | sawL, sawE, Action.deleteAuthAct :: rest =>
      sawL && sawE && teardownBeforeWipe sawL sawE rest
  | _, sawE, Action.logoutAct :: rest => teardownBeforeWipe true sawE rest
  | sawL, _, Action.endSockAct :: rest => teardownBeforeWipe sawL true rest
  | sawL, sawE, _ :: rest => teardownBeforeWipe sawL sawE rest

/-- A multipart request to `/api/send-message`: the `number` and `message`
body fields and whether an `image` file part was accepted by the upload
middleware. -/
structure SendReq where
  number : Option String
  message : Option String
  hasImage : Bool
deriving DecidableEq, Repr

/-- The outcome of one `/api/send-message` request: HTTP status, whether
the JSON body reported success, the JID handed to `sock.sendMessage` (if
reached), whether multer wrote a file into `uploads/`, and whether that
file is still there when the response goes out. -/
structure SendOutcome where
  httpStatus : Nat
  ok : Bool
  jidUsed : Option String
  fileWritten : Bool
  fileRemains : Bool
deriving DecidableEq, Repr

/-- `app.post('/api/send-message', upload.single('image'), ...)`
(`server.js` lines 953-1051).  The multer middleware stores any accepted
`image` part on disk before the handler runs.  The handler then: rejects
with 400 when `!isReady || !sock` (without touching the stored file);
rejects with 400 when `number` is missing (likewise); otherwise computes
the JID, and for an image send reads and sends the file, unlinking it on
success and on failure; for a text send it rejects with 400 when `message`
is missing and otherwise sends.  `sendFails` models `sock.sendMessage`
rejecting, which the catch block turns into a 500. -/
def sendMessageRoute (isReady sockPresent : Bool) (r : SendReq)
    (sendFails : Bool) : SendOutcome :=
  let written := r.hasImage
  if !(isReady && sockPresent) then
    ⟨400, false, none, written, written⟩
  else
    match r.number with
    | none => ⟨400, false, none, written, written⟩
    | some num =>
      let jid := formatJid num
      if r.hasImage then
        if sendFails then ⟨500, false, some jid, written, false⟩
        else ⟨200, true, some jid, written, false⟩
      else
        match r.message with
        | none => ⟨400, false, some jid, written, false⟩
        | some _ =>
          if sendFails then ⟨500, false, some jid, written, false⟩
          else ⟨200, true, some jid, written, false⟩

/-- A JSON response of the QR endpoint: HTTP status, the `status` field of
the body, and the `qr` field when present. -/
structure QrResp where
  httpStatus : Nat
  bodyStatus : String
  qr : Option String
deriving DecidableEq, Repr

/-- `app.get('/api/qr')` (`server.js` lines 795-816): when `isReady`,
answer `{status:'ready'}` (HTTP 200); otherwise `{status:'waiting'}` when
no QR token is held, and `{status:'success', qr}` when one is. -/
def qrRoute (isReady : Bool) (qrCodeData : Option String) : QrResp :=
  if isReady then ⟨200, "ready", none⟩
  else
    match qrCodeData with
    | none => ⟨200, "waiting", none⟩
    | some q => ⟨200, "success", some q⟩

/-- An error response in this codebase carries `status:'error'` in the
body and an HTTP status of 400 or above (as every error path of
`server.js` does). -/
def isErrorResp (r : QrResp) : Bool :=
  r.bodyStatus == "error" || Nat.ble 400 r.httpStatus

/-- HTTP request methods the server registers handlers for. -/
inductive HttpMethod
  | mGet
  | mPost
deriving BEq, DecidableEq, Repr

/-- A registered Express route: method and path. -/
structure Route where
  method : HttpMethod
  path : String
deriving BEq, DecidableEq, Repr

/-- Every route registered in `server.js` (lines 148, 786, 795, 819, 953,
1054, 1064, 1102), in registration order.  Requests matching none of them
fall through to the 404 handler at lines 1183-1189. -/
def registeredRoutes : List Route :=
  [⟨.mGet, "/"⟩, ⟨.mGet, "/api"⟩, ⟨.mGet, "/api/qr"⟩,
   ⟨.mGet, "/api/qr/display"⟩, ⟨.mPost, "/api/send-message"⟩,
   ⟨.mGet, "/api/status"⟩, ⟨.mGet, "/api/groups"⟩,
   ⟨.mPost, "/api/disconnect"⟩]

/-- Whether some registered route handles the given method and path. -/
def routeMatched (m : HttpMethod) (p : String) : Bool :=
  registeredRoutes.any fun r => r.method == m && r.path == p

/-- The body `status` field and HTTP status of the fallthrough 404 handler
(`server.js` lines 1183-1189). -/
def notFoundResp : QrResp := ⟨404, "error", none⟩

/-- The invariant claimed by the spec, read on the code's state variables
with `phase = Ready` iff `isReady`: the QR payload is non-empty only when
the phase is not Ready (`AwaitingScan` excludes `Ready`), and the stored
identity is non-empty only when the phase is Ready. -/
def stateInvariant (s : ConnState) : Bool :=
  (s.qrCodeData.isNone || !s.isReady) && (s.userInfo.isNone || s.isReady)

/-- C1 (counterexample): the send-message normalization does not strip the
`'+'` sign — `"+62 899-981-2190"` maps to `"+628999812190@s.whatsapp.net"`,
not to the digits-only `"628999812190@s.whatsapp.net"` the claim states. -/
theorem c1_plus_not_stripped :
    formatJid "+62 899-981-2190" = "+628999812190@s.whatsapp.net" ∧
    formatJid "+62 899-981-2190" ≠ "628999812190@s.whatsapp.net" := by
  decide

/-- C1 (amended): a target containing the group-chat marker `@g.us` or the
direct-chat marker `@s.whatsapp.net` is used verbatim; otherwise every
character that is neither a digit nor `'+'` is stripped (the `'+'` is
preserved) and the direct-chat suffix is appended, so that
`"+62 899-981-2190"` normalizes to `"+628999812190@s.whatsapp.net"`. -/
theorem c1_jid_normalization (s : String) :
    (strHasSub s "@g.us" = true → formatJid s = s) ∧
    (strHasSub s "@s.whatsapp.net" = true → formatJid s = s) ∧
    (strHasSub s "@g.us" = false → strHasSub s "@s.whatsapp.net" = false →
      formatJid s = cleanNumber s ++ "@s.whatsapp.net" ∧
      (cleanNumber s).toList = s.toList.filter isDigitOrPlus) ∧
    formatJid "+62 899-981-2190" = "+628999812190@s.whatsapp.net" := by
  refine ⟨?_, ?_, ?_, by decide⟩
  · intro h
    simp [formatJid, h]
  · intro h
    by_cases hg : strHasSub s "@g.us" = true
    · simp [formatJid, hg]
    · simp [formatJid, hg, h]
  · intro h1 h2
    exact ⟨by simp [formatJid, h1, h2], rfl⟩

/-- C1 witness: the amended normalization evaluated at concrete targets. -/
theorem c1_jid_normalization_witness :
    formatJid "12345@g.us" = "12345@g.us" ∧
    formatJid "628999812190@s.whatsapp.net" = "628999812190@s.whatsapp.net" ∧
    formatJid "+62 899-981-2190" =
      cleanNumber "+62 899-981-2190" ++ "@s.whatsapp.net" :=
  ⟨(c1_jid_normalization "12345@g.us").1 (by decide),
   (c1_jid_normalization "628999812190@s.whatsapp.net").2.1 (by decide),
   ((c1_jid_normalization "+62 899-981-2190").2.2.1 (by decide) (by decide)).1⟩

/-- C2 (counterexample): after an open event followed by a close event the
stored identity is still present while `isReady` is false — the close
branch (and likewise the disconnect route) never clears `userInfo`, so the
claimed invariant fails. -/
theorem c2_identity_not_cleared :
    ((handleUpdate
        ((handleUpdate ⟨none, false, none, true⟩
          ⟨none, some .openSig, none,
            some ⟨"628999812190:1@s.whatsapp.net", "Alice"⟩⟩).1)
        ⟨none, some .closeSig, some ⟨true, 428⟩, none⟩).1).userInfo =
      some ⟨"628999812190:1@s.whatsapp.net", "Alice"⟩ ∧
    ((handleUpdate
        ((handleUpdate ⟨none, false, none, true⟩
          ⟨none, some .openSig, none,
            some ⟨"628999812190:1@s.whatsapp.net", "Alice"⟩⟩).1)
        ⟨none, some .closeSig, some ⟨true, 428⟩, none⟩).1).isReady = false ∧
    stateInvariant
      ((handleUpdate
        ((handleUpdate ⟨none, false, none, true⟩
          ⟨none, some .openSig, none,
            some ⟨"628999812190:1@s.whatsapp.net", "Alice"⟩⟩).1)
        ⟨none, some .closeSig, some ⟨true, 428⟩, none⟩).1) = false := by
  decide

/-- C2 (amended): a close event and a disconnect with a live socket clear
the QR payload and leave the Ready phase, but neither clears the stored
identity — `userInfo` passes through unchanged, so identity non-empty does
not imply the phase is Ready.  The QR half of the invariant (QR payload
non-empty only while not Ready) is preserved by every update whose QR
token arrives while not Ready. -/
theorem c2_transition_invariants (s : ConnState) (err : Option CloseErr)
    (auth da rm : Bool) (u : ConnUpdate)
    (hq : u.qr.isSome = true → s.isReady = false) :
    ((handleUpdate s ⟨none, some .closeSig, err, none⟩).1.qrCodeData = none ∧
     (handleUpdate s ⟨none, some .closeSig, err, none⟩).1.isReady = false ∧
     (handleUpdate s ⟨none, some .closeSig, err, none⟩).1.userInfo = s.userInfo) ∧
    ((disconnectRoute s auth da rm).state.userInfo = s.userInfo ∧
     (s.sockPresent = true →
       (disconnectRoute s auth da rm).state.qrCodeData = none ∧
       (disconnectRoute s auth da rm).state.isReady = false)) ∧
    ((s.qrCodeData.isNone || !s.isReady) = true →
      ((handleUpdate s u).1.qrCodeData.isNone ||
        !(handleUpdate s u).1.isReady) = true) := by
  refine ⟨⟨rfl, rfl, rfl⟩, ?_, ?_⟩
  · rcases s with ⟨q, r, ui, sp⟩
    cases sp <;> simp [disconnectRoute]
  · intro hinv
    rcases u with ⟨uq, uc, ue, uu⟩
    rcases uc with _ | c
    · cases uq with
      | none => simpa [handleUpdate] using hinv
      | some t => simp [handleUpdate, hq rfl]
    · cases c with
      | closeSig => simp [handleUpdate]
      | openSig => simp [handleUpdate]
      | otherSig =>
        cases uq with
        | none => simpa [handleUpdate] using hinv
        | some t => simp [handleUpdate, hq rfl]

/-- C2 witness: the amended statement at a concrete Ready state, close
error, disconnect flags and idle update. -/
theorem c2_transition_invariants_witness :
    ((handleUpdate ⟨none, true, some ⟨"a", "b"⟩, true⟩
        ⟨none, some .closeSig, none, none⟩).1.qrCodeData = none ∧
     (handleUpdate ⟨none, true, some ⟨"a", "b"⟩, true⟩
        ⟨none, some .closeSig, none, none⟩).1.isReady = false ∧
     (handleUpdate ⟨none, true, some ⟨"a", "b"⟩, true⟩
        ⟨none, some .closeSig, none, none⟩).1.userInfo = some ⟨"a", "b"⟩) ∧
    ((disconnectRoute ⟨none, true, some ⟨"a", "b"⟩, true⟩ true false false).state.userInfo =
        some ⟨"a", "b"⟩ ∧
     ((⟨none, true, some ⟨"a", "b"⟩, true⟩ : ConnState).sockPresent = true →
       (disconnectRoute ⟨none, true, some ⟨"a", "b"⟩, true⟩ true false false).state.qrCodeData = none ∧
       (disconnectRoute ⟨none, true, some ⟨"a", "b"⟩, true⟩ true false false).state.isReady = false)) ∧
    (((⟨none, true, some ⟨"a", "b"⟩, true⟩ : ConnState).qrCodeData.isNone ||
        !(⟨none, true, some ⟨"a", "b"⟩, true⟩ : ConnState).isReady) = true →
      ((handleUpdate ⟨none, true, some ⟨"a", "b"⟩, true⟩ ⟨none, none, none, none⟩).1.qrCodeData.isNone ||
        !(handleUpdate ⟨none, true, some ⟨"a", "b"⟩, true⟩ ⟨none, none, none, none⟩).1.isReady) = true) :=
  c2_transition_invariants ⟨none, true, some ⟨"a", "b"⟩, true⟩ none true false false
    ⟨none, none, none, none⟩ (by decide)

/-- C3 (counterexample): a send-message request carrying an image while
the client is not ready is rejected with 400, but the upload middleware
has already written the file and the guard path leaves it in `uploads/`. -/
theorem c3_file_left_when_not_ready :
    (sendMessageRoute false true ⟨some "628999812190", some "hi", true⟩ false).httpStatus = 400 ∧
    (sendMessageRoute false true ⟨some "628999812190", some "hi", true⟩ false).fileWritten = true ∧
    (sendMessageRoute false true ⟨some "628999812190", some "hi", true⟩ false).fileRemains = true := by
  decide

/-- C3 (amended): every send-message request made while the client is not
ready fails with HTTP 400 and never reaches the send primitive; when the
request carries no media part nothing is written to the scratch
directory, but when it does carry one the upload middleware writes the
file before the guard runs and the 400 path leaves it there. -/
theorem c3_not_ready_guard (sockPresent : Bool) (r : SendReq) (sf : Bool) :
    (sendMessageRoute false sockPresent r sf).httpStatus = 400 ∧
    (sendMessageRoute false sockPresent r sf).ok = false ∧
    (sendMessageRoute false sockPresent r sf).jidUsed = none ∧
    (sendMessageRoute false sockPresent r sf).fileWritten = r.hasImage ∧
    (sendMessageRoute false sockPresent r sf).fileRemains = r.hasImage := by
  simp [sendMessageRoute]

/-- C4: a close whose error is a `Boom` with the logged-out status code
schedules no reconnect; every other close schedules exactly one reconnect
after the fixed 5000 ms delay — the state (and hence any notion of attempt
count) plays no role in the delay. -/
theorem c4_close_reconnect_policy (s : ConnState) (err : Option CloseErr) :
    (err = some ⟨true, loggedOutCode⟩ →
      (handleUpdate s ⟨none, some .closeSig, err, none⟩).2 = none) ∧
    (err ≠ some ⟨true, loggedOutCode⟩ →
      (handleUpdate s ⟨none, some .closeSig, err, none⟩).2 = some 5000) := by
  constructor
  · intro h
    subst h
    simp [handleUpdate, shouldReconnect]
  · intro h
    rcases err with _ | ⟨b, c⟩
    · simp [handleUpdate, shouldReconnect]
    · cases b
      · simp [handleUpdate, shouldReconnect]
      · have hc : c ≠ loggedOutCode := fun hc => h (by simp [hc])
        simp [handleUpdate, shouldReconnect, hc]

/-- C4 witness: the policy evaluated at a logged-out close and at a
non-logged-out (stream-errored) close. -/
theorem c4_close_reconnect_policy_witness :
    (handleUpdate ⟨none, true, none, true⟩
      ⟨none, some .closeSig, some ⟨true, 401⟩, none⟩).2 = none ∧
    (handleUpdate ⟨none, true, none, true⟩
      ⟨none, some .closeSig, some ⟨true, 428⟩, none⟩).2 = some 5000 :=
  ⟨(c4_close_reconnect_policy ⟨none, true, none, true⟩ (some ⟨true, 401⟩)).1 rfl,
   (c4_close_reconnect_policy ⟨none, true, none, true⟩ (some ⟨true, 428⟩)).2 (by decide)⟩

/-- C5: `server.js` registers no clear-auth route at all — a
`POST /clear-auth` (or `POST /api/clear-auth`) matches no registered route
and falls through to the 404 handler, which answers
`{status:'error'}` with HTTP 404. -/
theorem c5_clear_auth_route_missing :
    routeMatched .mPost "/clear-auth" = false ∧
    routeMatched .mPost "/api/clear-auth" = false ∧
    notFoundResp.httpStatus = 404 ∧
    notFoundResp.bodyStatus = "error" := by
  decide

/-- C6: the disconnect route with the default flag reports
`{status:'success', deletedAuth:false}`; calling it again right after (no
intervening connect) reports the same with no error, performs no side
effect at all, and the first call always leaves the socket absent — the
second call takes the immediate-success path. -/
theorem c6_disconnect_idempotent (s : ConnState) (auth rm1 rm2 : Bool) :
    (disconnectRoute s auth false rm1).resp = ⟨.success, false⟩ ∧
    (disconnectRoute (disconnectRoute s auth false rm1).state
        (disconnectRoute s auth false rm1).authDirExists false rm2).resp =
      ⟨.success, false⟩ ∧
    (disconnectRoute (disconnectRoute s auth false rm1).state
        (disconnectRoute s auth false rm1).authDirExists false rm2).trace = [] ∧
    (disconnectRoute s auth false rm1).state.sockPresent = false ∧
    (s.sockPresent = false →
      (disconnectRoute s auth false rm1).trace = [] ∧
      (disconnectRoute s auth false rm1).state = s) := by
  rcases s with ⟨q, r, ui, sp⟩
  cases sp <;> simp [disconnectRoute]

/-- C6 witness: both calls evaluated from a state with no socket. -/
theorem c6_disconnect_idempotent_witness :
    (disconnectRoute ⟨none, false, none, false⟩ true false false).resp = ⟨.success, false⟩ ∧
    (disconnectRoute (disconnectRoute ⟨none, false, none, false⟩ true false false).state
        (disconnectRoute ⟨none, false, none, false⟩ true false false).authDirExists false false).resp =
      ⟨.success, false⟩ ∧
    (disconnectRoute (disconnectRoute ⟨none, false, none, false⟩ true false false).state
        (disconnectRoute ⟨none, false, none, false⟩ true false false).authDirExists false false).trace = [] ∧
    (disconnectRoute ⟨none, false, none, false⟩ true false false).state.sockPresent = false ∧
    ((⟨none, false, none, false⟩ : ConnState).sockPresent = false →
      (disconnectRoute ⟨none, false, none, false⟩ true false false).trace = [] ∧
      (disconnectRoute ⟨none, false, none, false⟩ true false false).state =
        ⟨none, false, none, false⟩) :=
  c6_disconnect_idempotent ⟨none, false, none, false⟩ true false false

/-- C7: in every disconnect execution, any deletion of the credential
directory in the effect trace is strictly preceded by both the logout
attempt and the socket-close attempt, and the route answers success even
when the deletion throws (`rmFails = true`). -/
theorem c7_wipe_after_teardown (s : ConnState) (auth rm : Bool) :
    teardownBeforeWipe false false (disconnectRoute s auth true rm).trace = true ∧
    (disconnectRoute s auth true rm).resp.status = .success := by
  rcases s with ⟨q, r, ui, sp⟩
  cases sp <;> cases auth <;> cases rm <;>
    simp [disconnectRoute, teardownBeforeWipe]

/-- C8 (counterexample): with the client ready, `GET /api/qr` answers
`{status:'ready'}` with HTTP 200 — an informational response, not an error
by the codebase's own convention (`status:'error'` with HTTP ≥ 400). -/
theorem c8_ready_response_not_error :
    qrRoute true none = ⟨200, "ready", none⟩ ∧
    isErrorResp (qrRoute true none) = false ∧
    qrRoute true (some "tok") = ⟨200, "ready", none⟩ := by
  decide

/-- C8 (amended): when the phase is Ready the QR endpoint answers a
non-error `{status:'ready'}` notice (HTTP 200, no QR field); otherwise it
answers `{status:'waiting'}` when no QR payload is held and
`{status:'success', qr}` with the current payload when one is held. -/
theorem c8_qr_route_behaviour (qd : Option String) (q : String) :
    qrRoute true qd = ⟨200, "ready", none⟩ ∧
    isErrorResp (qrRoute true qd) = false ∧
    qrRoute false none = ⟨200, "waiting", none⟩ ∧
    qrRoute false (some q) = ⟨200, "success", some q⟩ :=
  ⟨rfl, rfl, rfl, rfl⟩

/-- C9: with no socket present, a disconnect request that asks for an auth
wipe still succeeds with `deletedAuth:false`, attempts no side effect, and
leaves both the credential directory and the state untouched. -/
theorem c9_wipe_ignored_without_sock (s : ConnState) (auth rm : Bool)
    (h : s.sockPresent = false) :
    (disconnectRoute s auth true rm).resp = ⟨.success, false⟩ ∧
    (disconnectRoute s auth true rm).authDirExists = auth ∧
    (disconnectRoute s auth true rm).trace = [] ∧
    (disconnectRoute s auth true rm).state = s := by
  simp [disconnectRoute, h]

/-- C9 witness: the no-socket wipe request at a concrete state. -/
theorem c9_wipe_ignored_without_sock_witness :
    (disconnectRoute ⟨none, false, none, false⟩ true true true).resp = ⟨.success, false⟩ ∧
    (disconnectRoute ⟨none, false, none, false⟩ true true true).authDirExists = true ∧
    (disconnectRoute ⟨none, false, none, false⟩ true true true).trace = [] ∧
    (disconnectRoute ⟨none, false, none, false⟩ true true true).state =
      ⟨none, false, none, false⟩ :=
  c9_wipe_ignored_without_sock ⟨none, false, none, false⟩ true true rfl

/-- C10: whenever a socket is present, the disconnect response's
`deletedAuth` field equals the request's `deleteAuth` flag and the status
is success — also when the credential deletion throws. -/
theorem c10_deletedAuth_echoes_flag (s : ConnState) (auth da rm : Bool)
    (h : s.sockPresent = true) :
    (disconnectRoute s auth da rm).resp.deletedAuth = da ∧
    (disconnectRoute s auth da rm).resp.status = .success := by
  simp [disconnectRoute, h]

/-- C10 witness: socket present, wipe requested, deletion throwing — the
response still reports `deletedAuth:true`. -/
theorem c10_deletedAuth_echoes_flag_witness :
    (disconnectRoute ⟨none, true, none, true⟩ true true true).resp.deletedAuth = true ∧
    (disconnectRoute ⟨none, true, none, true⟩ true true true).resp.status = .success :=
  c10_deletedAuth_echoes_flag ⟨none, true, none, true⟩ true true true rfl

end BaileysApi
